import Mathlib

/-!
Formal model of the Flappy Bird game loop (src/flappy-bird.py): the data
model, the per-tick update, input handling, and the game-mode state machine.

Modelling conventions.  Numeric state is modelled with exact rationals.
The injected random source `Rng` abstracts `random.uniform` and
`random.randint`: a draw is the next raw stream value clamped into the
requested range, which is exactly the library contract (every draw lands in
the closed range, and every value of the range is reachable).  Trigonometric
direction sampling for cosmetic particles (`cos angle`, `sin angle`) is
modelled by drawing the two direction components directly from the random
source; no claim depends on the numeric values of particle velocities.
`pygame.Rect` coordinates are kept exact rather than truncated to machine
integers.
-/

/- Core rational arithmetic is marked irreducible for the elaborator, which
blocks `decide` on concrete runs; restoring semireducibility only affects
unfolding during elaboration, not kernel semantics. -/
set_option allowUnsafeReducibility true in
attribute [semireducible] Rat.add Rat.sub Rat.mul Rat.neg Rat.div Rat.inv
  Rat.ofScientific Rat.floor

def SCREEN_WIDTH : ℚ := 400

def SCREEN_HEIGHT : ℚ := 600

def GRAVITY : ℚ := 0.4

def FLAP_POWER : ℚ := -9

def PIPE_VELOCITY : ℚ := -4

def PIPE_GAP : ℚ := 120

def MIN_PIPE_HEIGHT : ℤ := 50

/-- SCREEN_HEIGHT - PIPE_GAP - MIN_PIPE_HEIGHT in the source. -/
def MAX_PIPE_HEIGHT : ℤ := 600 - 120 - 50

inductive GameState where
  | MENU
  | PLAYING
  | GAME_OVER
  | PAUSED
  deriving DecidableEq

structure Particle where
  x : ℚ
  y : ℚ
  vx : ℚ
  vy : ℚ
  size : ℚ
  lifetime : ℚ
  color : ℤ × ℤ × ℤ
  deriving DecidableEq

/-- Particle.update: drift by velocity, particle gravity 0.2, lifetime
decays by dt, size decays by the fixed factor 0.98. -/
def Particle.update (p : Particle) (dt : ℚ) : Particle :=
  { p with x := p.x + p.vx, y := p.y + p.vy, vy := p.vy + 0.2,
           lifetime := p.lifetime - dt, size := p.size * 0.98 }

/-- Net effect of the update-then-remove loops over a particle list: every
particle is updated, then those with lifetime ≤ 0 are dropped. -/
def agePrune (ps : List Particle) (dt : ℚ) : List Particle :=
  (ps.map (fun p => p.update dt)).filter (fun p => decide (0 < p.lifetime))

structure Rng where
  stream : ℕ → ℚ
  idx : ℕ

def clampQ (a b q : ℚ) : ℚ := max a (min b q)

def Rng.next (r : Rng) : ℚ × Rng := (r.stream r.idx, ⟨r.stream, r.idx + 1⟩)

/-- Model of random.uniform a b: a draw from the closed interval [a, b]. -/
def Rng.uniformIn (r : Rng) (a b : ℚ) : ℚ × Rng :=
  (clampQ a b r.next.1, r.next.2)

/-- Model of random.randint a b: an integer draw from [a, b]. -/
def Rng.randIntIn (r : Rng) (a b : ℤ) : ℤ × Rng :=
  (max a (min b ⌊r.next.1⌋), r.next.2)

structure Bird where
  x : ℚ
  y : ℚ
  velocity : ℚ
  rotation : ℚ
  size : ℚ
  flap_cooldown : ℚ
  particles : List Particle
  deriving DecidableEq

/-- Bird.__init__. -/
def Bird.init (x y : ℚ) : Bird :=
  { x := x, y := y, velocity := 0, rotation := 0, size := 16,
    flap_cooldown := 0, particles := [] }

/-- One flap particle: direction components in [-1,1] stand in for the
sampled cos/sin, speed in [2,5], size in [2,4], lifetime 0.5, bird color. -/
def mkFlapParticle (x y : ℚ) (r : Rng) : Particle × Rng :=
  let dc := r.uniformIn (-1) 1
  let ds := dc.2.uniformIn (-1) 1
  let sp := ds.2.uniformIn 2 5
  let sz := sp.2.uniformIn 2 4
  ({ x := x, y := y, vx := dc.1 * sp.1, vy := ds.1 * sp.1,
     size := sz.1, lifetime := 0.5, color := (255, 200, 87) }, sz.2)

/-- A for-loop appending n freshly generated particles to acc. -/
def createN (mk : Rng → Particle × Rng) : ℕ → List Particle → Rng → List Particle × Rng
  | 0, acc, r => (acc, r)
  | n + 1, acc, r => createN mk n (acc ++ [(mk r).1]) (mk r).2

/-- Bird.flap: a no-op while on cooldown; otherwise sets the velocity to
FLAP_POWER, resets the cooldown to 0.1 and appends 5 flap particles. -/
def Bird.flap (b : Bird) (r : Rng) : Bird × Rng :=
  if b.flap_cooldown ≤ 0 then
    let pr := createN (mkFlapParticle b.x b.y) 5 b.particles r
    ({ b with velocity := FLAP_POWER, flap_cooldown := 0.1, particles := pr.1 }, pr.2)
  else (b, r)

/-- Bird.update: gravity onto velocity, velocity onto position, cooldown
decays by dt, rotation is clamp(velocity * 3, -30, 90), owned particles are
aged and pruned. -/
def Bird.update (b : Bird) (dt : ℚ) : Bird :=
  let v := b.velocity + GRAVITY
  { b with velocity := v, y := b.y + v, flap_cooldown := b.flap_cooldown - dt,
           rotation := min 90 (max (-30) (v * 3)),
           particles := agePrune b.particles dt }

structure RectQ where
  left : ℚ
  top : ℚ
  w : ℚ
  h : ℚ

def RectQ.right (r : RectQ) : ℚ := r.left + r.w

def RectQ.bottom (r : RectQ) : ℚ := r.top + r.h

/-- Bird.get_rect: the axis-aligned square of side 2 * size centered on the
bird (pygame.Rect kept at exact coordinates). -/
def Bird.get_rect (b : Bird) : RectQ :=
  { left := b.x - b.size, top := b.y - b.size, w := b.size * 2, h := b.size * 2 }

structure Pipe where
  x : ℚ
  gap_y : ℚ
  width : ℚ
  passed : Bool
  deriving DecidableEq

/-- Pipe.__init__. -/
def Pipe.init (x gap_y : ℚ) : Pipe :=
  { x := x, gap_y := gap_y, width := 50, passed := false }

/-- Pipe.update: moves left by the fixed speed, dt unused. -/
def Pipe.update (p : Pipe) (dt : ℚ) : Pipe :=
  { p with x := p.x + PIPE_VELOCITY }

/-- Pipe.is_off_screen. -/
def Pipe.is_off_screen (p : Pipe) : Bool :=
  decide (p.x + p.width < 0)

/-- Pipe.collides_with: bird rect against the top stub (above the gap) or
the bottom stub (below gap_y + PIPE_GAP), with the horizontal span test. -/
def Pipe.collides_with (p : Pipe) (b : Bird) : Bool :=
  let r := b.get_rect
  decide (r.top < p.gap_y ∧ r.left < p.x + p.width ∧ p.x < r.right) ||
  decide (p.gap_y + PIPE_GAP < r.bottom ∧ r.left < p.x + p.width ∧ p.x < r.right)

structure Game where
  state : GameState
  score : ℕ
  high_score : ℕ
  particles : List Particle
  pipe_spawn_timer : ℚ
  pipe_spawn_interval : ℚ
  bird : Bird
  pipes : List Pipe
  shake_intensity : ℚ
  frame_count : ℕ
  particle_system : List Particle
  rng : Rng

/-- Game.reset_game.  Note it assigns the (otherwise unused) field
particle_system and does not clear the free pool `particles`. -/
def Game.reset_game (g : Game) : Game :=
  { g with bird := Bird.init 100 300, pipes := [], score := 0,
           particle_system := [],
           pipe_spawn_timer := g.pipe_spawn_interval,
           shake_intensity := 0, frame_count := 0 }

/-- Game.__init__ followed by the reset_game call it makes. -/
def Game.init (r : Rng) : Game :=
  Game.reset_game
    { state := GameState.MENU, score := 0, high_score := 0, particles := [],
      pipe_spawn_timer := 0, pipe_spawn_interval := 2,
      bird := Bird.init 100 300, pipes := [], shake_intensity := 0,
      frame_count := 0, particle_system := [], rng := r }

/-- Game.spawn_pipe: a new pipe at SCREEN_WIDTH + 50 with gap_y drawn by
randint from [MIN_PIPE_HEIGHT, MAX_PIPE_HEIGHT]. -/
def Game.spawn_pipe (g : Game) : Game :=
  let pr := g.rng.randIntIn MIN_PIPE_HEIGHT MAX_PIPE_HEIGHT
  { g with pipes := g.pipes ++ [Pipe.init (SCREEN_WIDTH + 50) (pr.1 : ℚ)],
           rng := pr.2 }

/-- One collision-burst particle: warm random color, speed in [3,8],
size in [3,6], lifetime 0.8. -/
def mkCollisionParticle (x y : ℚ) (r : Rng) : Particle × Rng :=
  let dc := r.uniformIn (-1) 1
  let ds := dc.2.uniformIn (-1) 1
  let sp := ds.2.uniformIn 3 8
  let c1 := sp.2.randIntIn 200 255
  let c2 := c1.2.randIntIn 100 200
  let c3 := c2.2.randIntIn 50 150
  let sz := c3.2.uniformIn 3 6
  ({ x := x, y := y, vx := dc.1 * sp.1, vy := ds.1 * sp.1,
     size := sz.1, lifetime := 0.8, color := (c1.1, c2.1, c3.1) }, sz.2)

/-- One score-burst particle: upward-biased direction, speed in [2,4],
size in [2,4], lifetime 1.0, gold color. -/
def mkScoreParticle (x y : ℚ) (r : Rng) : Particle × Rng :=
  let dc := r.uniformIn (-1) 1
  let ds := dc.2.uniformIn (-1) 0
  let sp := ds.2.uniformIn 2 4
  let sz := sp.2.uniformIn 2 4
  ({ x := x, y := y, vx := dc.1 * sp.1, vy := ds.1 * sp.1,
     size := sz.1, lifetime := 1, color := (255, 215, 0) }, sz.2)

/-- Game.create_collision_particles: appends 10 burst particles to the free
pool. -/
def Game.create_collision_particles (g : Game) (x y : ℚ) : Game :=
  let pr := createN (mkCollisionParticle x y) 10 g.particles g.rng
  { g with particles := pr.1, rng := pr.2 }

/-- Game.create_score_particles: appends 5 burst particles to the free
pool. -/
def Game.create_score_particles (g : Game) (x y : ℚ) : Game :=
  let pr := createN (mkScoreParticle x y) 5 g.particles g.rng
  { g with particles := pr.1, rng := pr.2 }

/-- The repeated game-over block of Game.update: set GAME_OVER, set the
shake to 0.1, emit the collision burst at the bird, raise the best score
when the score exceeds it. -/
def Game.hitEffects (g : Game) : Game :=
  let g1 := Game.create_collision_particles
      { g with state := GameState.GAME_OVER, shake_intensity := 0.1 }
      g.bird.x g.bird.y
  if g1.high_score < g1.score then { g1 with high_score := g1.score } else g1

/-- Body of the pipe-collision loop of Game.update. -/
def Game.collideOne (g : Game) (p : Pipe) : Game :=
  if p.collides_with g.bird then g.hitEffects else g

/-- The pipe-collision loop of Game.update. -/
def Game.collisionPhase (g : Game) : Game :=
  g.pipes.foldl Game.collideOne g

/-- The ceiling/floor check of Game.update. -/
def Game.boundaryCheck (g : Game) : Game :=
  if g.bird.y - g.bird.size ≤ 0 ∨ SCREEN_HEIGHT ≤ g.bird.y + g.bird.size
  then g.hitEffects else g

/-- A pipe is counted this tick when it is not yet passed and its trailing
edge is strictly left of the bird. -/
def passNow (b : Bird) (p : Pipe) : Bool :=
  !p.passed && decide (p.x + p.width < b.x)

/-- Body of the pass/score loop of Game.update. -/
def Game.scoreStep (acc : Game) (p : Pipe) : Game :=
  if passNow acc.bird p then
    Game.create_score_particles
      { acc with score := acc.score + 1,
                 pipes := acc.pipes ++ [{ p with passed := true }] }
      (SCREEN_WIDTH / 2) 50
  else { acc with pipes := acc.pipes ++ [p] }

/-- The pass/score loop of Game.update, rebuilding the pipe list in order
with the passed flags the loop sets in place. -/
def Game.scorePhase (g : Game) : Game :=
  g.pipes.foldl Game.scoreStep { g with pipes := [] }

/-- The movement part of a Playing tick: bird physics, pipe movement,
removal of off-screen pipes, spawn-timer countdown and spawning. -/
def Game.movePhase (g : Game) (dt : ℚ) : Game :=
  let g1 := { g with bird := g.bird.update dt,
                     pipes := (g.pipes.map (fun p => p.update dt)).filter
                       (fun p => !p.is_off_screen),
                     pipe_spawn_timer := g.pipe_spawn_timer - dt }
  if g1.pipe_spawn_timer ≤ 0 then
    { g1.spawn_pipe with pipe_spawn_timer := g1.pipe_spawn_interval }
  else g1

/-- The state reached inside a Playing tick after movement, pipe collisions
and the boundary check, before the pass/score loop. -/
def Game.midTick (g : Game) (dt : ℚ) : Game :=
  ((g.movePhase dt).collisionPhase).boundaryCheck

/-- Game.update: the Playing block runs movement, collision checks and
scoring; free particles age and the shake decays on every tick. -/
def Game.update (g : Game) (dt : ℚ) : Game :=
  let g1 := if g.state = GameState.PLAYING then (g.midTick dt).scorePhase else g
  { g1 with particles := agePrune g1.particles dt,
            shake_intensity := g1.shake_intensity * 0.95 }

inductive GEvent where
  | quitEv
  | keySpace
  | keyUp
  | keyW
  | keyEscape
  | keyOther
  | mouseDown
  deriving DecidableEq

/-- The KEYDOWN branch of Game.handle_input for the SPACE/UP/W key group. -/
def Game.activateKey (g : Game) : Game :=
  match g.state with
  | GameState.MENU => Game.reset_game { g with state := GameState.PLAYING }
  | GameState.PLAYING =>
      let br := g.bird.flap g.rng
      { g with bird := br.1, rng := br.2 }
  | GameState.GAME_OVER => { g with state := GameState.MENU }
  | GameState.PAUSED => g

/-- The KEYDOWN branch of Game.handle_input for ESCAPE. -/
def Game.escapeKey (g : Game) : Game :=
  match g.state with
  | GameState.PLAYING => { g with state := GameState.PAUSED }
  | GameState.PAUSED => { g with state := GameState.PLAYING }
  | _ => g

/-- The MOUSEBUTTONDOWN branch of Game.handle_input. -/
def Game.mousePress (g : Game) : Game :=
  match g.state with
  | GameState.MENU => Game.reset_game { g with state := GameState.PLAYING }
  | GameState.GAME_OVER => Game.reset_game { g with state := GameState.PLAYING }
  | GameState.PLAYING =>
      let br := g.bird.flap g.rng
      { g with bird := br.1, rng := br.2 }
  | GameState.PAUSED => g

/-- Effect of one pygame event inside Game.handle_input. -/
def Game.handleEvent (g : Game) (e : GEvent) : Game :=
  match e with
  | GEvent.keySpace => g.activateKey
  | GEvent.keyUp => g.activateKey
  | GEvent.keyW => g.activateKey
  | GEvent.keyEscape => g.escapeKey
  | GEvent.mouseDown => g.mousePress
  | GEvent.quitEv => g
  | GEvent.keyOther => g

/-- Game.handle_input over the per-tick event queue: QUIT stops processing
and reports False. -/
def Game.handle_input (g : Game) : List GEvent → Game × Bool
  | [] => (g, true)
  | e :: es =>
      if e = GEvent.quitEv then (g, false)
      else Game.handle_input (g.handleEvent e) es

/-- One session step: either a processed input event or a tick. -/
inductive Step where
  | cmd : GEvent → Step
  | tick : ℚ → Step

def Game.runStep (g : Game) : Step → Game
  | Step.cmd e => g.handleEvent e
  | Step.tick dt => g.update dt

def Game.runSteps (g : Game) (ss : List Step) : Game :=
  ss.foldl Game.runStep g

/-- Run n ticks at 60 ticks per second with no input, flapping before tick
i whenever f i is true (a SPACE keydown, which in Playing mode flaps). -/
def Game.runFrom (f : ℕ → Bool) : Game → ℕ → ℕ → Game
  | g, _, 0 => g
  | g, i, n + 1 =>
      Game.runFrom f
        ((if f i then g.handleEvent GEvent.keySpace else g).update (1 / 60))
        (i + 1) n

/-- Single pass checking that the mode is PLAYING before every one of the n
ticks of runFrom and after the last one. -/
def Game.sustainedFrom (f : ℕ → Bool) : Game → ℕ → ℕ → Bool
  | g, _, 0 => g.state == GameState.PLAYING
  | g, i, n + 1 =>
      (g.state == GameState.PLAYING) &&
      Game.sustainedFrom f
        ((if f i then g.handleEvent GEvent.keySpace else g).update (1 / 60))
        (i + 1) n

/-- n ticks at 60 ticks per second with no input at all. -/
def Game.ticksN (g : Game) : ℕ → Game
  | 0 => g
  | n + 1 => (g.ticksN n).update (1 / 60)

/-! Helper lemmas about the particle generators and the free pool. -/

lemma createN_length (mk : Rng → Particle × Rng) :
    ∀ (n : ℕ) (acc : List Particle) (r : Rng),
      (createN mk n acc r).1.length = acc.length + n := by
  intro n
  induction n with
  | zero => intro acc r; simp [createN]
  | succ n ih =>
      intro acc r
      rw [createN, ih]
      simp
      omega

lemma createN_append (mk : Rng → Particle × Rng) :
    ∀ (n : ℕ) (acc : List Particle) (r : Rng),
      (createN mk n acc r).1 = acc ++ (createN mk n [] r).1 := by
  intro n
  induction n with
  | zero => intro acc r; simp [createN]
  | succ n ih =>
      intro acc r
      rw [createN, createN, ih (acc ++ [(mk r).1]), ih ([] ++ [(mk r).1])]
      simp

lemma createN_mem (mk : Rng → Particle × Rng) (L : ℚ)
    (hmk : ∀ r : Rng, (mk r).1.lifetime = L) :
    ∀ (n : ℕ) (acc : List Particle) (r : Rng),
      ∀ p ∈ (createN mk n acc r).1, p ∈ acc ∨ p.lifetime = L := by
  intro n
  induction n with
  | zero => intro acc r p hp; exact Or.inl hp
  | succ n ih =>
      intro acc r p hp
      rw [createN] at hp
      rcases ih _ _ p hp with h | h
      · rcases List.mem_append.1 h with h1 | h1
        · exact Or.inl h1
        · right
          have : p = (mk r).1 := by simpa using h1
          rw [this]
          exact hmk r
      · exact Or.inr h

lemma agePrune_length (ps : List Particle) (dt : ℚ)
    (h : ∀ p ∈ ps, dt < p.lifetime) :
    (agePrune ps dt).length = ps.length := by
  rw [agePrune, List.filter_eq_self.2, List.length_map]
  intro a ha
  obtain ⟨p, hp, rfl⟩ := List.mem_map.1 ha
  have := h p hp
  simp [Particle.update]
  linarith

/-! Component facts about the game-over effect block. -/

lemma create_collision_bird (g : Game) (x y : ℚ) :
    (g.create_collision_particles x y).bird = g.bird := by
  simp [Game.create_collision_particles]

lemma hitEffects_bird (g : Game) : g.hitEffects.bird = g.bird := by
  rw [Game.hitEffects]
  split <;> simp [Game.create_collision_particles]

lemma hitEffects_pipes (g : Game) : g.hitEffects.pipes = g.pipes := by
  rw [Game.hitEffects]
  split <;> simp [Game.create_collision_particles]

lemma hitEffects_score (g : Game) : g.hitEffects.score = g.score := by
  rw [Game.hitEffects]
  split <;> simp [Game.create_collision_particles]

lemma hitEffects_timer (g : Game) :
    g.hitEffects.pipe_spawn_timer = g.pipe_spawn_timer := by
  rw [Game.hitEffects]
  split <;> simp [Game.create_collision_particles]

lemma hitEffects_interval (g : Game) :
    g.hitEffects.pipe_spawn_interval = g.pipe_spawn_interval := by
  rw [Game.hitEffects]
  split <;> simp [Game.create_collision_particles]

lemma hitEffects_state (g : Game) : g.hitEffects.state = GameState.GAME_OVER := by
  rw [Game.hitEffects]
  split <;> simp [Game.create_collision_particles]

lemma hitEffects_shake (g : Game) : g.hitEffects.shake_intensity = 0.1 := by
  rw [Game.hitEffects]
  split <;> simp [Game.create_collision_particles]

lemma hitEffects_high (g : Game) :
    g.hitEffects.high_score = max g.high_score g.score := by
  rw [Game.hitEffects]
  split <;> rename_i h <;>
    simp [Game.create_collision_particles] at h ⊢ <;> omega

lemma hitEffects_plen (g : Game) :
    g.hitEffects.particles.length = g.particles.length + 10 := by
  rw [Game.hitEffects]
  split <;> simp [Game.create_collision_particles, createN_length]

/-! The pipe-collision loop, characterized by a fold induction. -/

lemma collideFold_spec (l : List Pipe) :
    ∀ g : Game,
      (l.foldl Game.collideOne g).bird = g.bird ∧
      (l.foldl Game.collideOne g).pipes = g.pipes ∧
      (l.foldl Game.collideOne g).score = g.score ∧
      (l.foldl Game.collideOne g).pipe_spawn_timer = g.pipe_spawn_timer ∧
      (l.foldl Game.collideOne g).pipe_spawn_interval = g.pipe_spawn_interval ∧
      (l.foldl Game.collideOne g).state =
        (if l.any (fun p => p.collides_with g.bird) then GameState.GAME_OVER
         else g.state) ∧
      (l.foldl Game.collideOne g).shake_intensity =
        (if l.any (fun p => p.collides_with g.bird) then (0.1 : ℚ)
         else g.shake_intensity) ∧
      (l.foldl Game.collideOne g).high_score =
        (if l.any (fun p => p.collides_with g.bird) then max g.high_score g.score
         else g.high_score) ∧
      (l.foldl Game.collideOne g).particles.length =
        g.particles.length +
          10 * (l.filter (fun p => p.collides_with g.bird)).length := by
  induction l with
  | nil => intro g; simp
  | cons p l ih =>
      intro g
      rw [List.foldl_cons]
      by_cases hp : p.collides_with g.bird
      · have hstep : Game.collideOne g p = g.hitEffects := by
          rw [Game.collideOne, if_pos hp]
        rw [hstep]
        obtain ⟨hb, hpi, hs, ht, hv, hst, hsh, hh, hl⟩ := ih g.hitEffects
        rw [hitEffects_bird] at hb hst hsh hh hl
        refine ⟨by rw [hb], by rw [hpi, hitEffects_pipes],
          by rw [hs, hitEffects_score], by rw [ht, hitEffects_timer],
          by rw [hv, hitEffects_interval], ?_, ?_, ?_, ?_⟩
        · rw [hst, hitEffects_state]
          simp [hp]
        · rw [hsh, hitEffects_shake]
          simp [hp]
        · rw [hh, hitEffects_high, hitEffects_score]
          simp only [List.any_cons, hp, Bool.true_or, if_true]
          split <;> omega
        · rw [hl, hitEffects_plen]
          simp only [List.filter_cons, hp, if_true, List.length_cons]
          ring
      · have hstep : Game.collideOne g p = g := by
          rw [Game.collideOne, if_neg (by simp [hp])]
        rw [hstep]
        obtain ⟨hb, hpi, hs, ht, hv, hst, hsh, hh, hl⟩ := ih g
        refine ⟨hb, hpi, hs, ht, hv, ?_, ?_, ?_, ?_⟩
        · rw [hst]; simp [hp]
        · rw [hsh]; simp [hp]
        · rw [hh]; simp [hp]
        · rw [hl]; simp [hp]

/-! The boundary check and the pass/score loop. -/

lemma boundaryCheck_breach (g : Game)
    (h : g.bird.y - g.bird.size ≤ 0 ∨ SCREEN_HEIGHT ≤ g.bird.y + g.bird.size) :
    g.boundaryCheck = g.hitEffects := by
  rw [Game.boundaryCheck, if_pos h]

lemma boundaryCheck_safe (g : Game)
    (h : ¬ (g.bird.y - g.bird.size ≤ 0 ∨ SCREEN_HEIGHT ≤ g.bird.y + g.bird.size)) :
    g.boundaryCheck = g := by
  rw [Game.boundaryCheck, if_neg h]

lemma scoreFold_spec (l : List Pipe) :
    ∀ g : Game,
      (l.foldl Game.scoreStep g).bird = g.bird ∧
      (l.foldl Game.scoreStep g).state = g.state ∧
      (l.foldl Game.scoreStep g).high_score = g.high_score ∧
      (l.foldl Game.scoreStep g).shake_intensity = g.shake_intensity ∧
      (l.foldl Game.scoreStep g).pipe_spawn_timer = g.pipe_spawn_timer ∧
      (l.foldl Game.scoreStep g).pipe_spawn_interval = g.pipe_spawn_interval ∧
      (l.foldl Game.scoreStep g).score =
        g.score + (l.filter (passNow g.bird)).length ∧
      (l.foldl Game.scoreStep g).pipes =
        g.pipes ++ l.map (fun p =>
          if passNow g.bird p then { p with passed := true } else p) ∧
      (l.foldl Game.scoreStep g).particles.length =
        g.particles.length + 5 * (l.filter (passNow g.bird)).length := by
  induction l with
  | nil => intro g; simp
  | cons p l ih =>
      intro g
      rw [List.foldl_cons]
      by_cases hp : passNow g.bird p
      · have hstep : Game.scoreStep g p =
            Game.create_score_particles
              { g with score := g.score + 1,
                       pipes := g.pipes ++ [{ p with passed := true }] }
              (SCREEN_WIDTH / 2) 50 := by
          rw [Game.scoreStep, if_pos hp]
        rw [hstep]
        simp only [Game.create_score_particles]
        obtain ⟨hb, hst, hh, hsh, ht, hv, hs, hpi, hl⟩ :=
          ih (Game.create_score_particles
              { g with score := g.score + 1,
                       pipes := g.pipes ++ [{ p with passed := true }] }
              (SCREEN_WIDTH / 2) 50)
        simp only [Game.create_score_particles] at hb hst hh hsh ht hv hs hpi hl
        refine ⟨by rw [hb], by rw [hst], by rw [hh], by rw [hsh], by rw [ht],
          by rw [hv], ?_, ?_, ?_⟩
        · rw [hs]
          simp only [List.filter_cons, hp, if_true, List.length_cons]
          omega
        · rw [hpi]
          simp [hp]
        · rw [hl, createN_length]
          simp only [List.filter_cons, hp, if_true, List.length_cons]
          ring
      · have hstep : Game.scoreStep g p = { g with pipes := g.pipes ++ [p] } := by
          rw [Game.scoreStep, if_neg (by simp [hp])]
        rw [hstep]
        obtain ⟨hb, hst, hh, hsh, ht, hv, hs, hpi, hl⟩ :=
          ih { g with pipes := g.pipes ++ [p] }
        refine ⟨by rw [hb], by rw [hst], by rw [hh], by rw [hsh], by rw [ht],
          by rw [hv], ?_, ?_, ?_⟩
        · rw [hs]
          simp [hp]
        · rw [hpi]
          simp [hp]
        · rw [hl]
          simp [hp]

/-! The movement phase and the full update. -/

lemma spawn_pipe_parts (g : Game) :
    (g.spawn_pipe).state = g.state ∧ (g.spawn_pipe).score = g.score ∧
    (g.spawn_pipe).high_score = g.high_score ∧
    (g.spawn_pipe).particles = g.particles ∧
    (g.spawn_pipe).shake_intensity = g.shake_intensity ∧
    (g.spawn_pipe).bird = g.bird ∧
    (g.spawn_pipe).pipe_spawn_interval = g.pipe_spawn_interval := by
  simp [Game.spawn_pipe]

lemma movePhase_state (g : Game) (dt : ℚ) : (g.movePhase dt).state = g.state := by
  rw [Game.movePhase]
  split
  · simp [Game.spawn_pipe]
  · rfl

lemma movePhase_score (g : Game) (dt : ℚ) : (g.movePhase dt).score = g.score := by
  rw [Game.movePhase]
  split
  · simp [Game.spawn_pipe]
  · rfl

lemma movePhase_high (g : Game) (dt : ℚ) :
    (g.movePhase dt).high_score = g.high_score := by
  rw [Game.movePhase]
  split
  · simp [Game.spawn_pipe]
  · rfl

lemma movePhase_particles (g : Game) (dt : ℚ) :
    (g.movePhase dt).particles = g.particles := by
  rw [Game.movePhase]
  split
  · simp [Game.spawn_pipe]
  · rfl

lemma movePhase_shake (g : Game) (dt : ℚ) :
    (g.movePhase dt).shake_intensity = g.shake_intensity := by
  rw [Game.movePhase]
  split
  · simp [Game.spawn_pipe]
  · rfl

lemma movePhase_bird (g : Game) (dt : ℚ) :
    (g.movePhase dt).bird = g.bird.update dt := by
  rw [Game.movePhase]
  split
  · simp [Game.spawn_pipe]
  · rfl

lemma movePhase_interval (g : Game) (dt : ℚ) :
    (g.movePhase dt).pipe_spawn_interval = g.pipe_spawn_interval := by
  rw [Game.movePhase]
  split
  · simp [Game.spawn_pipe]
  · rfl

lemma Bird.update_x (b : Bird) (dt : ℚ) : (b.update dt).x = b.x := rfl

lemma Bird.update_size (b : Bird) (dt : ℚ) : (b.update dt).size = b.size := rfl

lemma update_of_playing (g : Game) (dt : ℚ) (h : g.state = GameState.PLAYING) :
    g.update dt =
      { (g.midTick dt).scorePhase with
        particles := agePrune ((g.midTick dt).scorePhase).particles dt,
        shake_intensity := ((g.midTick dt).scorePhase).shake_intensity * 0.95 } := by
  rw [Game.update]
  simp only [h, if_true]

lemma update_of_not_playing (g : Game) (dt : ℚ) (h : ¬ g.state = GameState.PLAYING) :
    g.update dt =
      { g with particles := agePrune g.particles dt,
               shake_intensity := g.shake_intensity * 0.95 } := by
  rw [Game.update]
  simp only [h, if_false]

/-- A breach of the screen ceiling or floor, as Game.update tests it. -/
def breachNow (b : Bird) : Prop :=
  b.y - b.size ≤ 0 ∨ SCREEN_HEIGHT ≤ b.y + b.size

instance (b : Bird) : Decidable (breachNow b) := by
  unfold breachNow
  infer_instance

/-- Some pipe of the moved state collides with the moved bird. -/
def hitAny (g : Game) (dt : ℚ) : Bool :=
  (g.movePhase dt).pipes.any (fun p => p.collides_with (g.movePhase dt).bird)

lemma midTick_spec (g : Game) (dt : ℚ) :
    (g.midTick dt).bird = (g.movePhase dt).bird ∧
    (g.midTick dt).pipes = (g.movePhase dt).pipes ∧
    (g.midTick dt).score = g.score ∧
    (g.midTick dt).pipe_spawn_interval = g.pipe_spawn_interval ∧
    (g.midTick dt).pipe_spawn_timer = (g.movePhase dt).pipe_spawn_timer ∧
    (g.midTick dt).state =
      (if hitAny g dt = true ∨ breachNow (g.movePhase dt).bird
       then GameState.GAME_OVER else g.state) ∧
    (g.midTick dt).shake_intensity =
      (if hitAny g dt = true ∨ breachNow (g.movePhase dt).bird
       then (0.1 : ℚ) else g.shake_intensity) ∧
    (g.midTick dt).high_score =
      (if hitAny g dt = true ∨ breachNow (g.movePhase dt).bird
       then max g.high_score g.score else g.high_score) ∧
    (g.midTick dt).particles.length =
      g.particles.length
        + 10 * ((g.movePhase dt).pipes.filter
            (fun p => p.collides_with (g.movePhase dt).bird)).length
        + (if breachNow (g.movePhase dt).bird then 10 else 0) := by
  obtain ⟨cb, cp, cs, ct, cv, cst, csh, chh, cl⟩ :=
    collideFold_spec (g.movePhase dt).pipes (g.movePhase dt)
  have hcoll : (g.movePhase dt).collisionPhase =
      (g.movePhase dt).pipes.foldl Game.collideOne (g.movePhase dt) := rfl
  rw [← hcoll] at cb cp cs ct cv cst csh chh cl
  rw [movePhase_state] at cst
  rw [movePhase_score] at cs chh
  rw [movePhase_high] at chh
  rw [movePhase_shake] at csh
  rw [movePhase_particles] at cl
  rw [movePhase_interval] at cv
  have hhit : ((g.movePhase dt).pipes.any
      (fun p => p.collides_with (g.movePhase dt).bird)) = hitAny g dt := rfl
  rw [hhit] at cst csh chh
  by_cases hbr : breachNow (g.movePhase dt).bird
  · have hb2 : ((g.movePhase dt).collisionPhase).bird.y -
        ((g.movePhase dt).collisionPhase).bird.size ≤ 0 ∨
        SCREEN_HEIGHT ≤ ((g.movePhase dt).collisionPhase).bird.y +
          ((g.movePhase dt).collisionPhase).bird.size := by
      rw [cb]
      exact hbr
    have hmid : g.midTick dt = ((g.movePhase dt).collisionPhase).hitEffects := by
      rw [Game.midTick]
      exact boundaryCheck_breach _ hb2
    rw [hmid]
    refine ⟨by rw [hitEffects_bird, cb], by rw [hitEffects_pipes, cp],
      by rw [hitEffects_score, cs], by rw [hitEffects_interval, cv],
      by rw [hitEffects_timer, ct], ?_, ?_, ?_, ?_⟩
    · rw [hitEffects_state]
      simp [hbr]
    · rw [hitEffects_shake]
      simp [hbr]
    · rw [hitEffects_high, chh, cs]
      simp only [hbr, or_true, if_true]
      split <;> omega
    · rw [hitEffects_plen, cl]
      simp [hbr]
  · have hb2 : ¬ (((g.movePhase dt).collisionPhase).bird.y -
        ((g.movePhase dt).collisionPhase).bird.size ≤ 0 ∨
        SCREEN_HEIGHT ≤ ((g.movePhase dt).collisionPhase).bird.y +
          ((g.movePhase dt).collisionPhase).bird.size) := by
      rw [cb]
      exact hbr
    have hmid : g.midTick dt = (g.movePhase dt).collisionPhase := by
      rw [Game.midTick]
      exact boundaryCheck_safe _ hb2
    rw [hmid]
    refine ⟨cb, cp, cs, cv, ct, ?_, ?_, ?_, ?_⟩
    · rw [cst]
      simp [hbr]
    · rw [csh]
      simp [hbr]
    · rw [chh]
      simp [hbr]
    · rw [cl]
      simp [hbr]

lemma update_playing_spec (g : Game) (dt : ℚ) (h : g.state = GameState.PLAYING) :
    (g.update dt).state = (g.midTick dt).state ∧
    (g.update dt).score = g.score +
      ((g.midTick dt).pipes.filter (passNow (g.midTick dt).bird)).length ∧
    (g.update dt).pipes = (g.midTick dt).pipes.map (fun p =>
        if passNow (g.midTick dt).bird p then { p with passed := true } else p) ∧
    (g.update dt).high_score = (g.midTick dt).high_score ∧
    (g.update dt).shake_intensity = (g.midTick dt).shake_intensity * 0.95 ∧
    (g.update dt).bird = (g.midTick dt).bird ∧
    (g.update dt).pipe_spawn_timer = (g.midTick dt).pipe_spawn_timer := by
  rw [update_of_playing g dt h]
  obtain ⟨sb, sst, shh, ssh, st, sv, ss, spi, sl⟩ :=
    scoreFold_spec (g.midTick dt).pipes { g.midTick dt with pipes := [] }
  have hsc : (g.midTick dt).scorePhase =
      (g.midTick dt).pipes.foldl Game.scoreStep { g.midTick dt with pipes := [] } :=
    rfl
  rw [← hsc] at sb sst shh ssh st sv ss spi sl
  simp only at sb sst shh ssh st sv ss spi sl
  refine ⟨by simpa using sst, ?_, by simpa using spi, by simpa using shh,
    by exact congrArg (fun q => q * (0.95 : ℚ)) ssh,
    by simpa using sb, by simpa using st⟩
  have hms : (g.midTick dt).score = g.score := (midTick_spec g dt).2.2.1
  simp only [ss, hms]

/-! Concrete states used by witnesses and counterexamples. -/

def rng0 : Rng := ⟨fun _ => 1 / 2, 0⟩

/-- A fresh run: the initial game after the Activate that starts play. -/
def gFresh : Game := (Game.init rng0).activateKey

def gOverDemo : Game := { gFresh with state := GameState.GAME_OVER }

def gPausedDemo : Game := { gFresh with state := GameState.PAUSED }

/-- Playing, bird low enough that the tick breaches the floor. -/
def gBreach : Game := { gFresh with bird := { gFresh.bird with y := 590 } }

/-- gBreach with an unpassed pipe whose trailing edge crosses the bird
during the same tick. -/
def gC4demo : Game := { gBreach with pipes := [Pipe.init 50 50] }

/-- gBreach with a pipe overlapping the bird after the move. -/
def gC10demo : Game := { gBreach with pipes := [Pipe.init 94 50] }

/-- Playing with the bird forced to the ceiling. -/
def gCeil : Game := { gFresh with bird := { gFresh.bird with y := 0 } }

/-- Flap every 45 ticks: keeps the bird inside the screen for 2 seconds. -/
def fW : ℕ → Bool := fun i => i % 45 == 0

/-! Input handling, state by state. -/

lemma activateKey_menu (g : Game) (h : g.state = GameState.MENU) :
    g.activateKey = Game.reset_game { g with state := GameState.PLAYING } := by
  unfold Game.activateKey
  rw [h]

lemma activateKey_over (g : Game) (h : g.state = GameState.GAME_OVER) :
    g.activateKey = { g with state := GameState.MENU } := by
  unfold Game.activateKey
  rw [h]

lemma activateKey_paused (g : Game) (h : g.state = GameState.PAUSED) :
    g.activateKey = g := by
  unfold Game.activateKey
  rw [h]

lemma mousePress_menu (g : Game) (h : g.state = GameState.MENU) :
    g.mousePress = Game.reset_game { g with state := GameState.PLAYING } := by
  unfold Game.mousePress
  rw [h]

lemma mousePress_over (g : Game) (h : g.state = GameState.GAME_OVER) :
    g.mousePress = Game.reset_game { g with state := GameState.PLAYING } := by
  unfold Game.mousePress
  rw [h]

lemma mousePress_paused (g : Game) (h : g.state = GameState.PAUSED) :
    g.mousePress = g := by
  unfold Game.mousePress
  rw [h]

lemma escapeKey_playing (g : Game) (h : g.state = GameState.PLAYING) :
    g.escapeKey = { g with state := GameState.PAUSED } := by
  unfold Game.escapeKey
  rw [h]

lemma escapeKey_paused (g : Game) (h : g.state = GameState.PAUSED) :
    g.escapeKey = { g with state := GameState.PLAYING } := by
  unfold Game.escapeKey
  rw [h]

lemma reset_state (g : Game) : (Game.reset_game g).state = g.state := rfl

/-! Claim C7. -/

/-- C7: Bird.flap is a no-op (velocity, cooldown and particle list are all
unchanged) while the cooldown is positive; with cooldown ≤ 0 it sets the
velocity to the impulse constant FLAP_POWER = -9, resets the cooldown to
the fixed duration 0.1, and appends exactly 5 new particles to the bird's
owned list, leaving the position unchanged. -/
theorem c7_flap_cooldown_gate :
    (∀ (b : Bird) (r : Rng), 0 < b.flap_cooldown → b.flap r = (b, r)) ∧
    (∀ (b : Bird) (r : Rng), b.flap_cooldown ≤ 0 →
      ((b.flap r).1.velocity = FLAP_POWER ∧ FLAP_POWER = -9) ∧
      (b.flap r).1.flap_cooldown = 0.1 ∧
      (b.flap r).1.particles =
        b.particles ++ (createN (mkFlapParticle b.x b.y) 5 [] r).1 ∧
      (createN (mkFlapParticle b.x b.y) 5 [] r).1.length = 5 ∧
      (b.flap r).1.x = b.x ∧ (b.flap r).1.y = b.y) := by
  constructor
  · intro b r h
    rw [Bird.flap, if_neg (by linarith)]
  · intro b r h
    rw [Bird.flap, if_pos h]
    refine ⟨⟨rfl, rfl⟩, rfl, ?_, ?_, rfl, rfl⟩
    · exact createN_append _ 5 b.particles r
    · simp [createN_length]

/-- Witness for C7: a bird on cooldown is unchanged; a ready bird gets
velocity -9 and 5 particles. -/
theorem c7_flap_cooldown_gate_witness :
    ({ Bird.init 100 300 with flap_cooldown := 1 }.flap rng0 =
      ({ Bird.init 100 300 with flap_cooldown := 1 }, rng0)) ∧
    ((Bird.init 100 300).flap rng0).1.velocity = FLAP_POWER ∧
    ((Bird.init 100 300).flap rng0).1.particles.length = 5 := by
  refine ⟨c7_flap_cooldown_gate.1 _ rng0 (by norm_num), ?_, ?_⟩
  · exact ((c7_flap_cooldown_gate.2 (Bird.init 100 300) rng0 (le_refl 0)).1).1
  · have h := (c7_flap_cooldown_gate.2 (Bird.init 100 300) rng0 (le_refl 0)).2.2.1
    rw [h]
    simp [createN_length, Bird.init]

/-! Claim C9. -/

/-- C9: a tick taken in Menu, Paused or GameOver changes nothing except the
aging of the free particle pool and the shake decay: the updated state is
the old state with exactly those two fields recomputed; in particular the
bird (position, velocity, rotation, cooldown), every pipe (position and
passed flag), the score and the spawn timer are unchanged. -/
theorem c9_non_playing_tick_frozen :
    ∀ (g : Game) (dt : ℚ),
      g.state = GameState.MENU ∨ g.state = GameState.PAUSED ∨
        g.state = GameState.GAME_OVER →
      g.update dt = { g with particles := agePrune g.particles dt,
                             shake_intensity := g.shake_intensity * 0.95 } := by
  intro g dt h
  refine update_of_not_playing g dt ?_
  rcases h with h | h | h <;> simp [h]

/-- Witness for C9 at a concrete GameOver state. -/
theorem c9_non_playing_tick_frozen_witness :
    gOverDemo.update (1 / 60) =
      { gOverDemo with particles := agePrune gOverDemo.particles (1 / 60),
                       shake_intensity := gOverDemo.shake_intensity * 0.95 } :=
  c9_non_playing_tick_frozen gOverDemo (1 / 60) (Or.inr (Or.inr rfl))

/-! Claim C1. -/

/-- C1 (amended): the game-mode machine.  Activate in Menu enters Playing
via a full session reset; any collision or boundary breach during a Playing
tick yields GameOver; a keyboard Activate in GameOver returns to Menu while
a pointer Activate in GameOver starts a new Playing run (with reset);
Escape toggles Playing and Paused; every event other than Escape leaves a
Paused game completely unchanged. -/
theorem c1_mode_machine :
    (∀ g : Game, g.state = GameState.MENU →
      g.activateKey = Game.reset_game { g with state := GameState.PLAYING } ∧
      (g.activateKey).state = GameState.PLAYING ∧
      g.mousePress = Game.reset_game { g with state := GameState.PLAYING }) ∧
    (∀ g : Game, (Game.reset_game g).score = 0 ∧
      (Game.reset_game g).pipes = [] ∧
      (Game.reset_game g).bird = Bird.init 100 300 ∧
      (Game.reset_game g).pipe_spawn_timer = g.pipe_spawn_interval ∧
      (Game.reset_game g).shake_intensity = 0) ∧
    (∀ (g : Game) (dt : ℚ), g.state = GameState.PLAYING →
      ((∃ p ∈ (g.movePhase dt).pipes,
          p.collides_with (g.movePhase dt).bird = true) ∨
        breachNow (g.movePhase dt).bird) →
      (g.update dt).state = GameState.GAME_OVER) ∧
    (∀ g : Game, g.state = GameState.GAME_OVER →
      (g.activateKey).state = GameState.MENU ∧
      g.mousePress = Game.reset_game { g with state := GameState.PLAYING } ∧
      (g.mousePress).state = GameState.PLAYING) ∧
    (∀ g : Game,
      (g.state = GameState.PLAYING → (g.escapeKey).state = GameState.PAUSED) ∧
      (g.state = GameState.PAUSED → (g.escapeKey).state = GameState.PLAYING)) ∧
    (∀ (g : Game) (e : GEvent), g.state = GameState.PAUSED →
      e ≠ GEvent.keyEscape → g.handleEvent e = g) := by
  refine ⟨?_, ?_, ?_, ?_, ?_, ?_⟩
  · intro g h
    refine ⟨activateKey_menu g h, ?_, mousePress_menu g h⟩
    rw [activateKey_menu g h, reset_state]
  · intro g
    exact ⟨rfl, rfl, rfl, rfl, rfl⟩
  · intro g dt h hc
    rw [(update_playing_spec g dt h).1, (midTick_spec g dt).2.2.2.2.2.1]
    have hd : hitAny g dt = true ∨ breachNow (g.movePhase dt).bird := by
      rcases hc with ⟨p, hp, hcol⟩ | hb
      · exact Or.inl (List.any_eq_true.2 ⟨p, hp, hcol⟩)
      · exact Or.inr hb
    rw [if_pos hd]
  · intro g h
    refine ⟨?_, mousePress_over g h, ?_⟩
    · rw [activateKey_over g h]
    · rw [mousePress_over g h, reset_state]
  · intro g
    constructor
    · intro h
      rw [escapeKey_playing g h]
    · intro h
      rw [escapeKey_paused g h]
  · intro g e h he
    cases e with
    | keySpace => exact activateKey_paused g h
    | keyUp => exact activateKey_paused g h
    | keyW => exact activateKey_paused g h
    | keyEscape => exact absurd rfl he
    | mouseDown => exact mousePress_paused g h
    | quitEv => rfl
    | keyOther => rfl

/-- C1 counterexample: a pointer-press Activate while in GameOver switches
to Playing (with a session reset), not to Menu as the claim states. -/
theorem c1_counterexample :
    gOverDemo.state = GameState.GAME_OVER ∧
    (gOverDemo.handleEvent GEvent.mouseDown).state = GameState.PLAYING ∧
    GameState.PLAYING ≠ GameState.MENU :=
  ⟨rfl, rfl, by decide⟩

/-- Witness for C1 at concrete states for each transition. -/
theorem c1_mode_machine_witness :
    ((Game.init rng0).activateKey).state = GameState.PLAYING ∧
    (gBreach.update (1 / 60)).state = GameState.GAME_OVER ∧
    (gOverDemo.activateKey).state = GameState.MENU ∧
    (gFresh.escapeKey).state = GameState.PAUSED ∧
    (gPausedDemo.escapeKey).state = GameState.PLAYING ∧
    gPausedDemo.handleEvent GEvent.keySpace = gPausedDemo := by
  refine ⟨(c1_mode_machine.1 (Game.init rng0) rfl).2.1, ?_,
    (c1_mode_machine.2.2.2.1 gOverDemo rfl).1,
    (c1_mode_machine.2.2.2.2.1 gFresh).1 rfl,
    (c1_mode_machine.2.2.2.2.1 gPausedDemo).2 rfl,
    c1_mode_machine.2.2.2.2.2 gPausedDemo GEvent.keySpace rfl (by decide)⟩
  exact c1_mode_machine.2.2.1 gBreach (1 / 60) rfl (Or.inr (by decide))

/-! Claim C5. -/

/-- Disjointness of a rect from the closed rectangle [l2, r2] x [t2, b2]. -/
def RectQ.disjointFrom (r : RectQ) (l2 t2 r2 b2 : ℚ) : Prop :=
  r.right < l2 ∨ r2 < r.left ∨ r.bottom < t2 ∨ b2 < r.top

instance (r : RectQ) (l2 t2 r2 b2 : ℚ) : Decidable (r.disjointFrom l2 t2 r2 b2) := by
  unfold RectQ.disjointFrom
  infer_instance

/-- The bird bounds avoid both stub rectangles of a pipe: the top stub
[x, x + width] x [0, gap_y] and the bottom stub
[x, x + width] x [gap_y + PIPE_GAP, SCREEN_HEIGHT]. -/
def outsideStubs (b : Bird) (p : Pipe) : Prop :=
  (b.get_rect).disjointFrom p.x 0 (p.x + p.width) p.gap_y ∧
  (b.get_rect).disjointFrom p.x (p.gap_y + PIPE_GAP) (p.x + p.width) SCREEN_HEIGHT

instance (b : Bird) (p : Pipe) : Decidable (outsideStubs b p) := by
  unfold outsideStubs
  infer_instance

lemma get_rect_bottom (b : Bird) : b.get_rect.bottom = b.y + b.size := by
  simp [Bird.get_rect, RectQ.bottom]
  ring

lemma get_rect_top (b : Bird) : b.get_rect.top = b.y - b.size := rfl

lemma get_rect_left (b : Bird) : b.get_rect.left = b.x - b.size := rfl

lemma get_rect_right (b : Bird) : b.get_rect.right = b.x + b.size := by
  simp [Bird.get_rect, RectQ.right]
  ring

/-- C5: collides_with is true exactly when the bird bounds overlap the
pipe's width span and the bounds' top is above the gap top or the bounds'
bottom is below gap top + gap size; consequently a bird whose bounds are
disjoint from both stub rectangles of every live pipe and lie strictly
inside [0, 600] vertically survives a Playing tick. -/
theorem c5_collision_geometry :
    (∀ (p : Pipe) (b : Bird),
      p.collides_with b = true ↔
        ((b.get_rect.left < p.x + p.width ∧ p.x < b.get_rect.right) ∧
         (b.get_rect.top < p.gap_y ∨ p.gap_y + PIPE_GAP < b.get_rect.bottom))) ∧
    (∀ (g : Game) (dt : ℚ), g.state = GameState.PLAYING →
      0 ≤ (g.movePhase dt).bird.size →
      (∀ p ∈ (g.movePhase dt).pipes, outsideStubs (g.movePhase dt).bird p) →
      0 < (g.movePhase dt).bird.get_rect.top →
      (g.movePhase dt).bird.get_rect.bottom < SCREEN_HEIGHT →
      (g.update dt).state = GameState.PLAYING) := by
  have hiff : ∀ (p : Pipe) (b : Bird),
      p.collides_with b = true ↔
        ((b.get_rect.left < p.x + p.width ∧ p.x < b.get_rect.right) ∧
         (b.get_rect.top < p.gap_y ∨ p.gap_y + PIPE_GAP < b.get_rect.bottom)) := by
    intro p b
    simp only [Pipe.collides_with, Bool.or_eq_true, decide_eq_true_eq]
    tauto
  refine ⟨hiff, ?_⟩
  intro g dt h hsz hout htop hbot
  rw [get_rect_top] at htop
  rw [get_rect_bottom] at hbot
  have hbr : ¬ breachNow (g.movePhase dt).bird := by
    unfold breachNow
    push_neg
    constructor <;> linarith
  have hhit : hitAny g dt = false := by
    unfold hitAny
    rw [List.any_eq_false]
    intro p hp
    intro hcol
    obtain ⟨⟨hl, hr⟩, hv⟩ := (hiff p (g.movePhase dt).bird).1 hcol
    obtain ⟨hd1, hd2⟩ := hout p hp
    unfold RectQ.disjointFrom at hd1 hd2
    rw [get_rect_left] at hl hd1 hd2
    rw [get_rect_right] at hr hd1 hd2
    rw [get_rect_top] at hv hd1 hd2
    rw [get_rect_bottom] at hv hd1 hd2
    rcases hv with hv | hv
    · rcases hd1 with hd | hd | hd | hd <;> linarith
    · rcases hd2 with hd | hd | hd | hd <;> linarith
  rw [(update_playing_spec g dt h).1, (midTick_spec g dt).2.2.2.2.2.1, if_neg, h]
  rw [hhit]
  simp [hbr]

/-- Witness for C5: a pipe whose bottom stub the bird crosses does collide,
and a fresh-run tick with no pipes near the bird stays Playing. -/
theorem c5_collision_geometry_witness :
    (Pipe.init 90 50).collides_with (Bird.init 100 590) = true ∧
    (gFresh.update (1 / 60)).state = GameState.PLAYING := by
  refine ⟨(c5_collision_geometry.1 (Pipe.init 90 50) (Bird.init 100 590)).mpr
    (by decide), ?_⟩
  exact c5_collision_geometry.2 gFresh (1 / 60) rfl (by decide) (by decide)
    (by decide) (by decide)

/-! Claim C2. -/

lemma passMark_eq (b : Bird) (p : Pipe) :
    (if passNow b p then { p with passed := true } else p) =
      { p with passed := p.passed || decide (p.x + p.width < b.x) } := by
  unfold passNow
  rcases p with ⟨px, pg, pw, pp⟩
  cases pp <;> by_cases hc : px + pw < b.x <;> simp [hc]

/-- C2: during a Playing tick the score grows by exactly the number of
newly passed pipes (unpassed, trailing edge strictly left of the bird after
the move), each pipe's passed flag becomes its old flag OR-ed with the
trailing-edge test (so a pipe already passed is never counted again), a
freshly spawned pipe starts unpassed, and ticks outside Playing change
neither score nor pipes. -/
theorem c2_score_once_per_pipe :
    (∀ (g : Game) (dt : ℚ), g.state = GameState.PLAYING →
      (g.update dt).score = g.score +
        ((g.midTick dt).pipes.filter (passNow (g.midTick dt).bird)).length ∧
      (g.update dt).pipes = (g.midTick dt).pipes.map (fun p =>
        { p with passed := p.passed ||
            decide (p.x + p.width < (g.midTick dt).bird.x) })) ∧
    (∀ (g : Game) (dt : ℚ), g.state ≠ GameState.PLAYING →
      (g.update dt).score = g.score ∧ (g.update dt).pipes = g.pipes) ∧
    (∀ g : Game, ∃ gy : ℚ,
      (g.spawn_pipe).pipes = g.pipes ++ [Pipe.init (SCREEN_WIDTH + 50) gy]) := by
  refine ⟨?_, ?_, ?_⟩
  · intro g dt h
    refine ⟨(update_playing_spec g dt h).2.1, ?_⟩
    rw [(update_playing_spec g dt h).2.2.1]
    simp only [passMark_eq]
  · intro g dt h
    rw [update_of_not_playing g dt h]
    exact ⟨rfl, rfl⟩
  · intro g
    exact ⟨_, rfl⟩

/-- Witness for C2: the scoring equations at a Playing state with a pipe
being passed, a GameOver tick, and a concrete spawn. -/
theorem c2_score_once_per_pipe_witness :
    (gC4demo.update (1 / 60)).score = gC4demo.score +
      ((gC4demo.midTick (1 / 60)).pipes.filter
        (passNow (gC4demo.midTick (1 / 60)).bird)).length ∧
    (gOverDemo.update (1 / 60)).score = gOverDemo.score ∧
    ∃ gy : ℚ, (gFresh.spawn_pipe).pipes =
      gFresh.pipes ++ [Pipe.init (SCREEN_WIDTH + 50) gy] :=
  ⟨(c2_score_once_per_pipe.1 gC4demo (1 / 60) rfl).1,
   (c2_score_once_per_pipe.2.1 gOverDemo (1 / 60) (by decide)).1,
   c2_score_once_per_pipe.2.2 gFresh⟩

/-! Claim C3. -/

lemma handleEvent_high (g : Game) (e : GEvent) :
    (g.handleEvent e).high_score = g.high_score := by
  cases e <;>
    simp only [Game.handleEvent, Game.activateKey, Game.escapeKey,
      Game.mousePress] <;>
    cases hs : g.state <;> simp [Game.reset_game]

lemma update_high_le (g : Game) (dt : ℚ) :
    g.high_score ≤ (g.update dt).high_score := by
  by_cases h : g.state = GameState.PLAYING
  · rw [(update_playing_spec g dt h).2.2.2.1,
      (midTick_spec g dt).2.2.2.2.2.2.2.1]
    split
    · exact le_max_left _ _
    · exact le_refl _
  · rw [update_of_not_playing g dt h]

/-- C3: the best score never decreases across any sequence of commands and
ticks; a session reset keeps the best score and zeroes the score; and any
Playing tick that ends in GameOver raises the best score to the maximum of
itself and the score the tick began with. -/
theorem c3_best_score_monotone :
    (∀ (g : Game) (ss : List Step),
      g.high_score ≤ (g.runSteps ss).high_score) ∧
    (∀ g : Game, (Game.reset_game g).high_score = g.high_score ∧
      (Game.reset_game g).score = 0) ∧
    (∀ (g : Game) (dt : ℚ), g.state = GameState.PLAYING →
      (g.update dt).state = GameState.GAME_OVER →
      (g.update dt).high_score = max g.high_score g.score) := by
  refine ⟨?_, ?_, ?_⟩
  · intro g ss
    induction ss generalizing g with
    | nil => exact le_refl _
    | cons s ss ih =>
        refine le_trans ?_ (ih (g.runStep s))
        cases s with
        | cmd e => exact le_of_eq (handleEvent_high g e).symm
        | tick dt => exact update_high_le g dt
  · intro g
    exact ⟨rfl, rfl⟩
  · intro g dt h hgo
    rw [(update_playing_spec g dt h).1, (midTick_spec g dt).2.2.2.2.2.1] at hgo
    rw [(update_playing_spec g dt h).2.2.2.1,
      (midTick_spec g dt).2.2.2.2.2.2.2.1]
    by_cases hc : hitAny g dt = true ∨ breachNow (g.movePhase dt).bird
    · rw [if_pos hc]
    · rw [if_neg hc] at hgo
      rw [h] at hgo
      exact absurd hgo (by decide)

/-- Witness for C3: monotonicity over a concrete step list, a concrete
reset, and a concrete Playing-to-GameOver tick. -/
theorem c3_best_score_monotone_witness :
    gFresh.high_score ≤
      (gFresh.runSteps [Step.cmd GEvent.keySpace, Step.tick (1 / 60)]).high_score ∧
    (Game.reset_game gOverDemo).high_score = gOverDemo.high_score ∧
    (gBreach.update (1 / 60)).high_score = max gBreach.high_score gBreach.score :=
  ⟨c3_best_score_monotone.1 gFresh [Step.cmd GEvent.keySpace, Step.tick (1 / 60)],
   (c3_best_score_monotone.2.1 gOverDemo).1,
   c3_best_score_monotone.2.2 gBreach (1 / 60) rfl (by decide)⟩

/-! Claim C4. -/

/-- C4 counterexample: from a Playing state in which the bird breaches the
floor while an unpassed pipe's trailing edge crosses the bird's x in the
same tick, the collision handling has already set the mode to GameOver
(with the score still 0), and the pass loop running later in the same tick
increments the score to 1. -/
theorem c4_counterexample :
    gC4demo.state = GameState.PLAYING ∧
    (gC4demo.midTick (1 / 60)).state = GameState.GAME_OVER ∧
    (gC4demo.midTick (1 / 60)).score = 0 ∧
    (gC4demo.update (1 / 60)).score = 1 ∧
    (gC4demo.update (1 / 60)).state = GameState.GAME_OVER :=
  ⟨rfl, by decide, by decide, by decide, by decide⟩

/-- C4 (amended): the score never changes on a tick taken in Menu, Paused
or GameOver; a command either leaves the score unchanged or zeroes it by
entering Playing through the session reset; and on a tick that begins in
Playing the score grows by the number of newly passed pipes, with the pass
loop still running even when a collision earlier in the same tick has
already set the mode to GameOver. -/
theorem c4_score_only_while_playing :
    (∀ (g : Game) (dt : ℚ),
      g.state = GameState.MENU ∨ g.state = GameState.PAUSED ∨
        g.state = GameState.GAME_OVER →
      (g.update dt).score = g.score) ∧
    (∀ (g : Game) (e : GEvent),
      (g.handleEvent e).score = g.score ∨
      ((g.handleEvent e).state = GameState.PLAYING ∧
        (g.handleEvent e).score = 0)) ∧
    (∀ (g : Game) (dt : ℚ), g.state = GameState.PLAYING →
      (g.update dt).score = g.score +
        ((g.midTick dt).pipes.filter (passNow (g.midTick dt).bird)).length) := by
  refine ⟨?_, ?_, ?_⟩
  · intro g dt h
    have hne : ¬ g.state = GameState.PLAYING := by
      rcases h with h | h | h <;> simp [h]
    rw [update_of_not_playing g dt hne]
  · intro g e
    cases e <;>
      simp only [Game.handleEvent, Game.activateKey, Game.escapeKey,
        Game.mousePress] <;>
      cases hs : g.state <;> simp [Game.reset_game]
  · intro g dt h
    exact (update_playing_spec g dt h).2.1

/-- Witness for C4 at a GameOver tick, a command, and a Playing tick. -/
theorem c4_score_only_while_playing_witness :
    (gOverDemo.update (1 / 60)).score = gOverDemo.score ∧
    ((gOverDemo.handleEvent GEvent.mouseDown).score = gOverDemo.score ∨
      ((gOverDemo.handleEvent GEvent.mouseDown).state = GameState.PLAYING ∧
        (gOverDemo.handleEvent GEvent.mouseDown).score = 0)) ∧
    (gC4demo.update (1 / 60)).score = gC4demo.score +
      ((gC4demo.midTick (1 / 60)).pipes.filter
        (passNow (gC4demo.midTick (1 / 60)).bird)).length :=
  ⟨c4_score_only_while_playing.1 gOverDemo (1 / 60) (Or.inr (Or.inr rfl)),
   c4_score_only_while_playing.2.1 gOverDemo GEvent.mouseDown,
   c4_score_only_while_playing.2.2 gC4demo (1 / 60) rfl⟩

/-! Claim C6. -/

lemma Bird.update_y (b : Bird) (dt : ℚ) :
    (b.update dt).y = b.y + (b.velocity + GRAVITY) := rfl

lemma movePhase_no_spawn (g : Game) (dt : ℚ)
    (h : ¬ g.pipe_spawn_timer - dt ≤ 0) :
    g.movePhase dt =
      { g with bird := g.bird.update dt,
               pipes := (g.pipes.map (fun p => p.update dt)).filter
                 (fun p => !p.is_off_screen),
               pipe_spawn_timer := g.pipe_spawn_timer - dt } := by
  rw [Game.movePhase]
  split
  · rename_i hc
    exact absurd hc h
  · rfl

lemma hitEffects_particles (g : Game) :
    g.hitEffects.particles =
      (createN (mkCollisionParticle g.bird.x g.bird.y) 10 g.particles g.rng).1 := by
  rw [Game.hitEffects]
  split <;> simp [Game.create_collision_particles]

lemma mkCollisionParticle_lifetime (x y : ℚ) (r : Rng) :
    (mkCollisionParticle x y r).1.lifetime = 0.8 := rfl

/-- C6 counterexample: forcing the bird's y to 0 during Playing and running
one tick does yield GameOver and a 10-particle burst, but the end-of-tick
decay multiplies the assigned 0.1 by 0.95, so the shake intensity observed
after the tick is 0.095, not the claimed 0.1. -/
theorem c6_counterexample :
    (gCeil.update (1 / 60)).state = GameState.GAME_OVER ∧
    (gCeil.update (1 / 60)).particles.length = 10 ∧
    (gCeil.update (1 / 60)).shake_intensity ≠ (0.1 : ℚ) ∧
    (gCeil.update (1 / 60)).shake_intensity = (0.1 : ℚ) * 0.95 :=
  ⟨by decide, by decide, by decide, by decide⟩

/-- C6 (amended): with no live pipes, an empty free pool and no spawn due,
a ceiling breach (bird forced to y = 0) or a floor breach during a Playing
tick transitions the mode to GameOver, sets the shake intensity to the
fixed 0.1 inside the tick (ending the tick at 0.1 * 0.95 after the decay
step), and adds a burst of exactly 10 particles to the free pool. -/
theorem c6_boundary_hit_effects :
    ∀ (g : Game) (dt : ℚ),
      g.state = GameState.PLAYING → g.pipes = [] → g.particles = [] →
      0 < dt → dt < g.pipe_spawn_timer → dt < 0.8 →
      ((g.bird.y = 0 → g.bird.velocity + GRAVITY ≤ g.bird.size →
        (g.update dt).state = GameState.GAME_OVER ∧
        (g.midTick dt).shake_intensity = 0.1 ∧
        (g.update dt).shake_intensity = 0.1 * 0.95 ∧
        (g.update dt).particles.length = 10) ∧
       (SCREEN_HEIGHT ≤ g.bird.y + g.bird.velocity + GRAVITY + g.bird.size →
        (g.update dt).state = GameState.GAME_OVER ∧
        (g.midTick dt).shake_intensity = 0.1 ∧
        (g.update dt).shake_intensity = 0.1 * 0.95 ∧
        (g.update dt).particles.length = 10)) := by
  intro g dt h hpipes hpool hdt0 hdtt hdt8
  have hmp := movePhase_no_spawn g dt (by linarith)
  have hmpp : (g.movePhase dt).pipes = [] := by
    rw [hmp]
    simp [hpipes]
  have hmpb : (g.movePhase dt).bird = g.bird.update dt := by rw [hmp]
  have hmppart : (g.movePhase dt).particles = g.particles := by rw [hmp]
  have main : breachNow (g.bird.update dt) →
      (g.update dt).state = GameState.GAME_OVER ∧
      (g.midTick dt).shake_intensity = 0.1 ∧
      (g.update dt).shake_intensity = 0.1 * 0.95 ∧
      (g.update dt).particles.length = 10 := by
    intro hbr
    have hbr2 : breachNow (g.movePhase dt).bird := by
      rw [hmpb]
      exact hbr
    have hcond : hitAny g dt = true ∨ breachNow (g.movePhase dt).bird :=
      Or.inr hbr2
    have hst : (g.update dt).state = GameState.GAME_OVER := by
      rw [(update_playing_spec g dt h).1, (midTick_spec g dt).2.2.2.2.2.1,
        if_pos hcond]
    have hsh1 : (g.midTick dt).shake_intensity = 0.1 := by
      rw [(midTick_spec g dt).2.2.2.2.2.2.1, if_pos hcond]
    have hsh2 : (g.update dt).shake_intensity = 0.1 * 0.95 := by
      rw [(update_playing_spec g dt h).2.2.2.2.1, hsh1]
    -- the collision pass is the identity because there are no pipes
    have hcp : (g.movePhase dt).collisionPhase = g.movePhase dt := by
      unfold Game.collisionPhase
      rw [hmpp]
      rfl
    have hmid : g.midTick dt = (g.movePhase dt).hitEffects := by
      rw [Game.midTick, hcp]
      exact boundaryCheck_breach _ hbr2
    have hmidpart : (g.midTick dt).particles =
        (createN (mkCollisionParticle (g.movePhase dt).bird.x
          (g.movePhase dt).bird.y) 10 [] (g.movePhase dt).rng).1 := by
      rw [hmid, hitEffects_particles, hmppart, hpool]
    have hmidpipes : (g.midTick dt).pipes = [] := by
      rw [(midTick_spec g dt).2.1, hmpp]
    have hspp : ((g.midTick dt).scorePhase).particles =
        (g.midTick dt).particles := by
      unfold Game.scorePhase
      rw [hmidpipes]
      rfl
    have hup : (g.update dt).particles =
        agePrune ((g.midTick dt).scorePhase).particles dt := by
      rw [update_of_playing g dt h]
    refine ⟨hst, hsh1, hsh2, ?_⟩
    rw [hup, hspp, hmidpart]
    rw [agePrune_length]
    · rw [createN_length]
      rfl
    · intro p hp
      rcases createN_mem _ (0.8 : ℚ) (fun r => rfl) 10 [] _ p hp with hc | hc
      · exact absurd hc (List.not_mem_nil p)
      · rw [hc]
        exact hdt8
  constructor
  · intro hy hv
    refine main ?_
    unfold breachNow
    left
    rw [Bird.update_y, Bird.update_size, hy]
    linarith
  · intro hfloor
    refine main ?_
    unfold breachNow
    right
    rw [Bird.update_y, Bird.update_size]
    linarith

/-- Witness for C6: the ceiling scenario at y = 0 and a floor scenario. -/
theorem c6_boundary_hit_effects_witness :
    ((gCeil.update (1 / 60)).state = GameState.GAME_OVER ∧
      (gCeil.midTick (1 / 60)).shake_intensity = 0.1 ∧
      (gCeil.update (1 / 60)).shake_intensity = 0.1 * 0.95 ∧
      (gCeil.update (1 / 60)).particles.length = 10) ∧
    ((gBreach.update (1 / 60)).state = GameState.GAME_OVER ∧
      (gBreach.update (1 / 60)).particles.length = 10) := by
  have h1 := (c6_boundary_hit_effects gCeil (1 / 60) rfl rfl rfl (by decide)
    (by decide) (by decide)).1 rfl (by decide)
  have h2 := (c6_boundary_hit_effects gBreach (1 / 60) rfl rfl rfl (by decide)
    (by decide) (by decide)).2 (by decide)
  exact ⟨h1, h2.1, h2.2.2.2⟩

/-! Claim C10. -/

/-- C10: on a Playing tick in which the moved bird breaches a screen
boundary and overlaps n pipes, the collision stage appends n + 1 bursts of
10 particles each to the free pool, the shake assignments net to the fixed
0.1, the repeated best-score updates net to max(best, score), and the tick
ends in GameOver. -/
theorem c10_multi_trigger_effects :
    ∀ (g : Game) (dt : ℚ), g.state = GameState.PLAYING →
      breachNow (g.movePhase dt).bird →
      (g.midTick dt).particles.length =
        g.particles.length +
          10 * (((g.movePhase dt).pipes.filter
            (fun p => p.collides_with (g.movePhase dt).bird)).length + 1) ∧
      (g.midTick dt).shake_intensity = 0.1 ∧
      (g.midTick dt).high_score = max g.high_score g.score ∧
      (g.update dt).state = GameState.GAME_OVER := by
  intro g dt h hbr
  have hcond : hitAny g dt = true ∨ breachNow (g.movePhase dt).bird :=
    Or.inr hbr
  refine ⟨?_, ?_, ?_, ?_⟩
  · rw [(midTick_spec g dt).2.2.2.2.2.2.2.2, if_pos hbr]
    ring
  · rw [(midTick_spec g dt).2.2.2.2.2.2.1, if_pos hcond]
  · rw [(midTick_spec g dt).2.2.2.2.2.2.2.1, if_pos hcond]
  · rw [(update_playing_spec g dt h).1, (midTick_spec g dt).2.2.2.2.2.1,
      if_pos hcond]

/-- Witness for C10: one overlapping pipe plus a floor breach gives two
10-particle bursts (pool of 20) and GameOver. -/
theorem c10_multi_trigger_effects_witness :
    ((gC10demo.midTick (1 / 60)).particles.length =
      gC10demo.particles.length +
        10 * (((gC10demo.movePhase (1 / 60)).pipes.filter
          (fun p => p.collides_with (gC10demo.movePhase (1 / 60)).bird)).length
            + 1) ∧
      (gC10demo.midTick (1 / 60)).shake_intensity = 0.1 ∧
      (gC10demo.midTick (1 / 60)).high_score =
        max gC10demo.high_score gC10demo.score ∧
      (gC10demo.update (1 / 60)).state = GameState.GAME_OVER) ∧
    (gC10demo.midTick (1 / 60)).particles.length = 20 :=
  ⟨c10_multi_trigger_effects gC10demo (1 / 60) rfl (by decide), by decide⟩

/-! Claim C8. -/

set_option maxRecDepth 40000 in
/-- C8 counterexample: starting a fresh run and advancing exactly 120 ticks
at 60 ticks per second with no Activate commands, the free-falling bird
breaches the floor at tick 38, the run is GameOver long before the 2
seconds elapse, and the live pipe collection after 120 ticks is empty: no
obstacle has spawned, instead of the claimed exactly one at x = 450. -/
theorem c8_counterexample :
    (gFresh.ticksN 120).pipes.length = 0 ∧
    (gFresh.ticksN 120).state = GameState.GAME_OVER ∧
    (gFresh.ticksN 38).state = GameState.GAME_OVER ∧
    (gFresh.ticksN 37).state = GameState.PLAYING :=
  ⟨by decide, by decide, by decide, by decide⟩

lemma randIntIn_bounds (r : Rng) :
    (50 : ℚ) ≤ ((r.randIntIn MIN_PIPE_HEIGHT MAX_PIPE_HEIGHT).1 : ℚ) ∧
    ((r.randIntIn MIN_PIPE_HEIGHT MAX_PIPE_HEIGHT).1 : ℚ) ≤ 430 := by
  unfold Rng.randIntIn MIN_PIPE_HEIGHT MAX_PIPE_HEIGHT
  constructor
  · have h : (50 : ℤ) ≤ max 50 (min (600 - 120 - 50) ⌊r.next.1⌋) :=
      le_max_left _ _
    exact_mod_cast h
  · have h : max (50 : ℤ) (min (600 - 120 - 50) ⌊r.next.1⌋) ≤ 430 :=
      max_le (by norm_num) (le_trans (min_le_left _ _) (by norm_num))
    exact_mod_cast h

lemma movePhase_spawn_pipes (g : Game) (dt : ℚ)
    (h : g.pipe_spawn_timer - dt ≤ 0) (hp : g.pipes = []) :
    ∃ gy : ℚ, (g.movePhase dt).pipes = [Pipe.init (SCREEN_WIDTH + 50) gy] ∧
      (50 : ℚ) ≤ gy ∧ gy ≤ 430 := by
  rw [Game.movePhase]
  split
  · refine ⟨(((g.rng.randIntIn MIN_PIPE_HEIGHT MAX_PIPE_HEIGHT).1 : ℤ) : ℚ), ?_,
      (randIntIn_bounds g.rng).1, (randIntIn_bounds g.rng).2⟩
    simp [Game.spawn_pipe, hp]
  · rename_i hc
    exact absurd h hc

lemma flapStep_parts (g : Game) (h : g.state = GameState.PLAYING) :
    (g.handleEvent GEvent.keySpace).pipes = g.pipes ∧
    (g.handleEvent GEvent.keySpace).pipe_spawn_timer = g.pipe_spawn_timer ∧
    (g.handleEvent GEvent.keySpace).state = GameState.PLAYING ∧
    (g.handleEvent GEvent.keySpace).bird.x = g.bird.x := by
  simp only [Game.handleEvent, Game.activateKey]
  rw [h]
  refine ⟨rfl, rfl, rfl, ?_⟩
  show (g.bird.flap g.rng).1.x = g.bird.x
  unfold Bird.flap
  split <;> rfl

lemma update_pipes_of_mid_nil (g : Game) (dt : ℚ)
    (h : g.state = GameState.PLAYING)
    (hmp : (g.movePhase dt).pipes = []) :
    (g.update dt).pipes = [] := by
  rw [(update_playing_spec g dt h).2.2.1, (midTick_spec g dt).2.1, hmp]
  rfl

/-- One sustained-Playing tick with no spawn keeps the pipe list empty,
counts the timer down by dt = 1/60 and preserves the bird's x. -/
lemma tick_no_spawn_parts (g : Game) (h : g.state = GameState.PLAYING)
    (hp : g.pipes = []) (ht : ¬ g.pipe_spawn_timer - 1 / 60 ≤ 0) :
    (g.update (1 / 60)).pipes = [] ∧
    (g.update (1 / 60)).pipe_spawn_timer = g.pipe_spawn_timer - 1 / 60 ∧
    (g.update (1 / 60)).bird.x = g.bird.x := by
  have hmp := movePhase_no_spawn g (1 / 60) ht
  have hmpp : (g.movePhase (1 / 60)).pipes = [] := by
    rw [hmp]
    simp [hp]
  refine ⟨update_pipes_of_mid_nil g (1 / 60) h hmpp, ?_, ?_⟩
  · rw [(update_playing_spec g (1 / 60) h).2.2.2.2.2.2,
      (midTick_spec g (1 / 60)).2.2.2.2.1, hmp]
  · rw [(update_playing_spec g (1 / 60) h).2.2.2.2.2.1,
      (midTick_spec g (1 / 60)).1, hmp]
    show (g.bird.update (1 / 60)).x = g.bird.x
    exact Bird.update_x g.bird (1 / 60)

lemma runFrom_spawn_aux (f : ℕ → Bool) :
    ∀ (n : ℕ), 1 ≤ n → ∀ (i : ℕ) (g : Game),
      g.pipes = [] → g.pipe_spawn_timer = (n : ℚ) / 60 → g.bird.x = 100 →
      Game.sustainedFrom f g i n = true →
      ∃ gy : ℚ,
        (Game.runFrom f g i n).pipes = [Pipe.init (SCREEN_WIDTH + 50) gy] ∧
        (50 : ℚ) ≤ gy ∧ gy ≤ 430 := by
  intro n
  induction n with
  | zero => intro h0; omega
  | succ n ih =>
      intro h1 i g hp ht hx hsus
      rw [Game.sustainedFrom, Bool.and_eq_true, beq_iff_eq] at hsus
      obtain ⟨hplay, htail⟩ := hsus
      set g1 := if f i then g.handleEvent GEvent.keySpace else g with hg1
      have hg1p : g1.pipes = [] ∧ g1.pipe_spawn_timer = ((n + 1 : ℕ) : ℚ) / 60 ∧
          g1.state = GameState.PLAYING ∧ g1.bird.x = 100 := by
        cases hf : f i
        · rw [hg1]
          simp only [hf, if_false]
          exact ⟨hp, ht, hplay, hx⟩
        · rw [hg1]
          simp only [hf, if_true]
          obtain ⟨f1, f2, f3, f4⟩ := flapStep_parts g hplay
          exact ⟨f1.trans hp, f2.trans ht, f3, f4.trans hx⟩
      rw [Game.runFrom]
      cases n with
      | zero =>
          -- the 120th tick: the timer reaches 0 and the pipe spawns
          have hsp : g1.pipe_spawn_timer - 1 / 60 ≤ 0 := by
            rw [hg1p.2.1]
            norm_num
          obtain ⟨gy, hgp, hgy1, hgy2⟩ :=
            movePhase_spawn_pipes g1 (1 / 60) hsp hg1p.1
          refine ⟨gy, ?_, hgy1, hgy2⟩
          rw [Game.runFrom]
          rw [(update_playing_spec g1 (1 / 60) hg1p.2.2.1).2.2.1,
            (midTick_spec g1 (1 / 60)).2.1, hgp]
          have hbx : (g1.midTick (1 / 60)).bird.x = 100 := by
            rw [(midTick_spec g1 (1 / 60)).1, movePhase_bird,
              Bird.update_x, hg1p.2.2.2]
          simp only [List.map_cons, List.map_nil]
          rw [passMark_eq, hbx]
          norm_num [Pipe.init, SCREEN_WIDTH]
      | succ m =>
          -- an earlier tick: the timer stays positive, nothing spawns
          have hns : ¬ g1.pipe_spawn_timer - 1 / 60 ≤ 0 := by
            rw [hg1p.2.1]
            push_neg
            have : (0 : ℚ) < ((m + 1 : ℕ) : ℚ) / 60 := by positivity
            push_cast
            push_cast at this
            linarith
          obtain ⟨t1, t2, t3⟩ :=
            tick_no_spawn_parts g1 hg1p.2.2.1 hg1p.1 hns
          refine ih (by omega) (i + 1) (g1.update (1 / 60)) t1 ?_
            (t3.trans hg1p.2.2.2) htail
          rw [t2, hg1p.2.1]
          push_cast
          ring

/-- C8 (amended): the no-input scenario ends the run at tick 38 with no
spawn (see the counterexample); under any flap schedule that keeps the
mode Playing through the first 120 ticks at 60 ticks per second, a fresh
run has exactly one pipe after those two seconds, spawned at
x = SCREEN_WIDTH + 50 = 450 and not yet passed, with its gap center in
[50, 430]; and every spawn whatsoever draws its gap center in
[MIN_PIPE_HEIGHT, MAX_PIPE_HEIGHT] = [50, 430]. -/
theorem c8_first_spawn :
    (∀ (f : ℕ → Bool) (r : Rng),
      Game.sustainedFrom f ((Game.init r).activateKey) 0 120 = true →
      ∃ gy : ℚ,
        (Game.runFrom f ((Game.init r).activateKey) 0 120).pipes =
          [Pipe.init (SCREEN_WIDTH + 50) gy] ∧
        (50 : ℚ) ≤ gy ∧ gy ≤ 430) ∧
    (∀ g : Game, ∃ gy : ℚ,
      (g.spawn_pipe).pipes = g.pipes ++ [Pipe.init (SCREEN_WIDTH + 50) gy] ∧
      (50 : ℚ) ≤ gy ∧ gy ≤ 430) := by
  constructor
  · intro f r hsus
    refine runFrom_spawn_aux f 120 (by norm_num) 0 ((Game.init r).activateKey)
      rfl ?_ rfl hsus
    show (2 : ℚ) = (120 : ℕ) / 60
    norm_num
  · intro g
    exact ⟨(((g.rng.randIntIn MIN_PIPE_HEIGHT MAX_PIPE_HEIGHT).1 : ℤ) : ℚ), rfl,
      (randIntIn_bounds g.rng).1, (randIntIn_bounds g.rng).2⟩

set_option maxRecDepth 40000 in
/-- Witness for C8: flapping every 45 ticks keeps the fresh run Playing for
the whole 2 seconds, and the run then holds exactly one pipe at x = 450. -/
theorem c8_first_spawn_witness :
    Game.sustainedFrom fW gFresh 0 120 = true ∧
    (∃ gy : ℚ,
      (Game.runFrom fW gFresh 0 120).pipes =
        [Pipe.init (SCREEN_WIDTH + 50) gy] ∧
      (50 : ℚ) ≤ gy ∧ gy ≤ 430) ∧
    (∃ gy : ℚ, (gFresh.spawn_pipe).pipes =
      gFresh.pipes ++ [Pipe.init (SCREEN_WIDTH + 50) gy] ∧
      (50 : ℚ) ≤ gy ∧ gy ≤ 430) :=
  ⟨by decide, c8_first_spawn.1 fW rng0 (by decide), c8_first_spawn.2 gFresh⟩
